import Mathlib

/-!
Shallow embedding of the authentication session synchronizer in
`src/contexts/AuthContext.tsx` (the `AuthProvider` component) together with
the `useAuth` hook and the derived `isAdmin` / `isStudent` flags.

The provider is single-threaded and event-driven: every `await` is a
suspension point, and all state mutation happens in synchronous segments
between suspension points.  We model it as a transition system: `SyncState`
holds the React state (`user`, `profile`, `session`, `loading`) together
with the closure variables of the effect (`profileFetchController`, the set
of aborted controllers, the startup timeout, the pending `getSession` call)
and the set of in-flight asynchronous operations.  Each `Event` is the
delivery of one asynchronous completion (or the synchronous prefix of an
action up to its first `await`), and `step` runs the corresponding
synchronous code segment of the source.

Abort is cooperative: aborting a controller makes an AbortError settlement
possible, but a request whose promise already settled with data before the
abort still delivers its real result (the fetch API cannot retract a
settled promise), so a settlement with a real outcome is possible at any
time.  An AbortError settlement is only possible for an aborted controller.
-/

namespace UpscAuth

/-- `role` column of the `profiles` row: `'admin' | 'student'`. -/
inductive Role where
  | admin
  | student
deriving DecidableEq

/-- The `profiles` table row, restricted to the fields the provider reads. -/
structure Profile where
  id : Nat
  role : Role
deriving DecidableEq

/-- A supabase session; the provider only ever reads `session.user` (modelled
by the user id it carries). -/
structure Session where
  userId : Nat
deriving DecidableEq

/-- The observable React state of `AuthProvider`:
`{ user, profile, session, loading }`. -/
structure AuthState where
  user : Option Nat
  profile : Option Profile
  session : Option Session
  loading : Bool
deriving DecidableEq

/-- Full state of the provider: observable state plus the effect's closure
variables and the set of in-flight asynchronous operations.

`postSignIn` is a ghost flag (it influences nothing): it records that a
successful `signInWithPassword` has returned, so its SIGNED_IN push
notification is still due; it is used only to state the loading invariant. -/
structure SyncState where
  auth : AuthState
  /-- the `await supabase.auth.getSession()` in `initializeAuth` has not settled. -/
  initPending : Bool
  /-- `initializationTimeout` is scheduled and has neither fired nor been cleared. -/
  timerArmed : Bool
  /-- `profileFetchController`: id of the current controller, if one was created. -/
  ctrl : Option Nat
  /-- ids of controllers on which `.abort()` has been called. -/
  aborted : List Nat
  /-- allocator for fresh controller ids. -/
  nextCtrl : Nat
  /-- in-flight profile fetches: (controller id it was issued with, userId queried). -/
  pending : List (Nat × Nat)
  /-- number of outstanding `signInWithPassword` calls. -/
  signInPending : Nat
  /-- number of outstanding `auth.signUp` calls. -/
  signUpAuthPending : Nat
  /-- number of outstanding `profiles.insert` calls issued by `signUp`. -/
  signUpInsertPending : Nat
  /-- number of outstanding `auth.signOut` calls. -/
  signOutPending : Nat
  /-- ghost: a successful sign-in whose push notification has not yet arrived. -/
  postSignIn : Bool
deriving DecidableEq

/-- Outcome of the `getSession()` query: a session-or-null result, or a
failure (an error result or a thrown exception; both take the same path). -/
inductive InitOutcome where
  | ok (s : Option Session)
  | fail
deriving DecidableEq

/-- Outcome of one profile fetch: row data, error result with code PGRST116
(not found), any other error result, a thrown non-abort exception, or a
thrown AbortError. -/
inductive FetchOutcome where
  | ok (p : Profile)
  | notFound
  | errResult
  | thrown
  | abortedThrown
deriving DecidableEq

/-- Outcome of `signInWithPassword`: error result, success with user and
session, success missing user or session, or a thrown exception. -/
inductive SignInOutcome where
  | okFull
  | okEmpty
  | errResult
  | thrown
deriving DecidableEq

/-- Outcome of `auth.signUp`: success with a user, success without a user,
error result, or thrown exception. -/
inductive SignUpAuthOutcome where
  | okUser
  | okNoUser
  | errResult
  | thrown
deriving DecidableEq

/-- One delivered asynchronous completion, push event, or action start. -/
inductive Event where
  | timerFires
  | getSessionResolved (o : InitOutcome)
  | authEvent (s : Option Session)
  | fetchSettled (c : Nat) (o : FetchOutcome)
  | signInStart
  | signInSettled (o : SignInOutcome)
  | signUpStart
  | signUpAuthSettled (o : SignUpAuthOutcome)
  | signUpInsertSettled (ok : Bool)
  | signOutStart
  | signOutSettled (ok : Bool)
deriving DecidableEq

/-- `resetAuthState` from the source: clears user, profile, session and sets
`loading` to false. -/
def resetAuthState (st : SyncState) : SyncState :=
  { st with auth := { user := none, profile := none, session := none, loading := false } }

/-- `profileFetchController.abort()` on the current controller, if any. -/
def abortCurrent (st : SyncState) : SyncState :=
  match st.ctrl with
  | none => st
  | some c => { st with aborted := c :: st.aborted }

/-- Synchronous prefix of `fetchUserProfile(userId)`: abort any existing
controller, create a fresh one, and issue the profile query under it. -/
def startFetch (st : SyncState) (uid : Nat) : SyncState :=
  let st1 := abortCurrent st
  { st1 with
      ctrl := some st1.nextCtrl
      nextCtrl := st1.nextCtrl + 1
      pending := st1.pending ++ [(st1.nextCtrl, uid)] }

/-- The guard `profileFetchController.signal.aborted` evaluated at
settlement time.  Note that it reads the closure variable as it is *then*,
which may be a newer controller than the one the settling fetch was issued
with. -/
def ctrlAborted (st : SyncState) : Bool :=
  match st.ctrl with
  | none => false
  | some c => st.aborted.contains c

/-- Look up the userId of the in-flight fetch issued under controller `c`. -/
def findFetch (l : List (Nat × Nat)) (c : Nat) : Option Nat :=
  match l with
  | [] => none
  | (c', u) :: rest => if c' = c then some u else findFetch rest c

/-- Remove the in-flight fetch issued under controller `c`. -/
def removeFetch (l : List (Nat × Nat)) (c : Nat) : List (Nat × Nat) :=
  match l with
  | [] => []
  | (c', u) :: rest =>
      if c' = c then removeFetch rest c else (c', u) :: removeFetch rest c

/-- Continuation of `fetchUserProfile` after its `await` settles with
outcome `o`.  Result outcomes pass the `!mounted || aborted` guard (which
consults the current `profileFetchController`); thrown exceptions skip that
guard; every path runs the `finally` block, which sets `loading` to false. -/
def settleFetch (st : SyncState) (c : Nat) (o : FetchOutcome) : SyncState :=
  let st0 := { st with pending := removeFetch st.pending c }
  match o with
  | .abortedThrown =>
      { st0 with auth := { st0.auth with loading := false } }
  | .thrown =>
      { st0 with auth := { st0.auth with profile := none, loading := false } }
  | .ok p =>
      if ctrlAborted st0 then
        { st0 with auth := { st0.auth with loading := false } }
      else
        { st0 with auth := { st0.auth with profile := some p, loading := false } }
  | .notFound =>
      if ctrlAborted st0 then
        { st0 with auth := { st0.auth with loading := false } }
      else
        { st0 with auth := { st0.auth with profile := none, loading := false } }
  | .errResult =>
      if ctrlAborted st0 then
        { st0 with auth := { st0.auth with loading := false } }
      else
        { st0 with auth := { st0.auth with profile := none, loading := false } }

/-- `handleAuthStateChange(event, newSession)`: abort any ongoing profile
fetch, set `session` and `user` from the incoming session, then either
start a profile fetch for its user or reset the auth state. -/
def handleAuthStateChange (st : SyncState) (s : Option Session) : SyncState :=
  let st1 := abortCurrent st
  let st2 := { st1 with
                 auth := { st1.auth with session := s, user := s.map Session.userId }
                 postSignIn := false }
  match s with
  | some s' => startFetch st2 s'.userId
  | none => resetAuthState st2

/-- Continuation of `initializeAuth` after `getSession()` settles: clear the
startup timeout, then reset on failure or missing session, or adopt the
session and start the profile fetch. -/
def settleInit (st : SyncState) (o : InitOutcome) : SyncState :=
  let st1 := { st with initPending := false, timerArmed := false }
  match o with
  | .fail => resetAuthState st1
  | .ok none => resetAuthState st1
  | .ok (some s) =>
      let st2 := { st1 with
                     auth := { st1.auth with
                                 session := some s, user := some s.userId } }
      startFetch st2 s.userId

/-- The `initializationTimeout` callback: if still scheduled, set `loading`
to false (the callback only runs once). -/
def fireTimer (st : SyncState) : SyncState :=
  if st.timerArmed then
    { st with timerArmed := false, auth := { st.auth with loading := false } }
  else st

/-- Synchronous prefix of `signIn`: `setLoading(true)` and issue
`signInWithPassword`. -/
def startSignIn (st : SyncState) : SyncState :=
  { st with
      auth := { st.auth with loading := true }
      signInPending := st.signInPending + 1 }

/-- Continuation of `signIn` after `signInWithPassword` settles.  On a full
success the function returns without clearing `loading` (the auth-change
listener is expected to do that); every other path sets `loading` false. -/
def settleSignIn (st : SyncState) (o : SignInOutcome) : SyncState :=
  if st.signInPending = 0 then st
  else
    let st1 := { st with signInPending := st.signInPending - 1 }
    match o with
    | .okFull => { st1 with postSignIn := true }
    | .okEmpty => { st1 with auth := { st1.auth with loading := false } }
    | .errResult => { st1 with auth := { st1.auth with loading := false } }
    | .thrown => { st1 with auth := { st1.auth with loading := false } }

/-- Synchronous prefix of `signUp`: `setLoading(true)` and issue
`auth.signUp`. -/
def startSignUp (st : SyncState) : SyncState :=
  { st with
      auth := { st.auth with loading := true }
      signUpAuthPending := st.signUpAuthPending + 1 }

/-- Continuation of `signUp` after `auth.signUp` settles: with a user it
issues the profile insert; otherwise it sets `loading` false. -/
def settleSignUpAuth (st : SyncState) (o : SignUpAuthOutcome) : SyncState :=
  if st.signUpAuthPending = 0 then st
  else
    let st1 := { st with signUpAuthPending := st.signUpAuthPending - 1 }
    match o with
    | .okUser => { st1 with signUpInsertPending := st1.signUpInsertPending + 1 }
    | .okNoUser => { st1 with auth := { st1.auth with loading := false } }
    | .errResult => { st1 with auth := { st1.auth with loading := false } }
    | .thrown => { st1 with auth := { st1.auth with loading := false } }

/-- Continuation of `signUp` after the profile insert settles: both branches
end with `setLoading(false)`. -/
def settleSignUpInsert (st : SyncState) (_ok : Bool) : SyncState :=
  if st.signUpInsertPending = 0 then st
  else
    { st with
        signUpInsertPending := st.signUpInsertPending - 1
        auth := { st.auth with loading := false } }

/-- Synchronous prefix of `signOut`: `setLoading(true)`, clear user, profile
and session, and issue `auth.signOut`.  It has no access to
`profileFetchController`, so no fetch is aborted. -/
def startSignOut (st : SyncState) : SyncState :=
  { st with
      auth := { user := none, profile := none, session := none, loading := true }
      signOutPending := st.signOutPending + 1 }

/-- Continuation of `signOut` after `auth.signOut` settles: success and
failure only differ in logging; the `finally` block sets `loading` false. -/
def settleSignOut (st : SyncState) (_ok : Bool) : SyncState :=
  if st.signOutPending = 0 then st
  else
    { st with
        signOutPending := st.signOutPending - 1
        auth := { st.auth with loading := false } }

/-- One delivered event.  A `getSessionResolved` is only deliverable while
the query is outstanding; a `fetchSettled` only for an in-flight fetch, and
with `abortedThrown` only if that fetch's own controller was aborted;
settlements of actions only while one is outstanding.  Undeliverable events
are no-ops. -/
def step (st : SyncState) : Event → SyncState
  | .timerFires => fireTimer st
  | .getSessionResolved o => if st.initPending then settleInit st o else st
  | .authEvent s => handleAuthStateChange st s
  | .fetchSettled c o =>
      match findFetch st.pending c with
      | none => st
      | some _ =>
          if o = FetchOutcome.abortedThrown ∧ st.aborted.contains c = false then st
          else settleFetch st c o
  | .signInStart => startSignIn st
  | .signInSettled o => settleSignIn st o
  | .signUpStart => startSignUp st
  | .signUpAuthSettled o => settleSignUpAuth st o
  | .signUpInsertSettled ok => settleSignUpInsert st ok
  | .signOutStart => startSignOut st
  | .signOutSettled ok => settleSignOut st ok

/-- State at mount, after the synchronous part of the effect ran: `loading`
is true, the `getSession()` query has been issued and the 5000 ms startup
timeout armed, no controller exists yet. -/
def initState : SyncState where
  auth := { user := none, profile := none, session := none, loading := true }
  initPending := true
  timerArmed := true
  ctrl := none
  aborted := []
  nextCtrl := 0
  pending := []
  signInPending := 0
  signUpAuthPending := 0
  signUpInsertPending := 0
  signOutPending := 0
  postSignIn := false

/-- Run a sequence of delivered events from a given state. -/
def runFrom (st : SyncState) : List Event → SyncState
  | [] => st
  | e :: tr => runFrom (step st e) tr

/-- Run a sequence of delivered events from the mount state. -/
def run (tr : List Event) : SyncState := runFrom initState tr

/-- The startup timeout value passed to `setTimeout` in `initializeAuth`. -/
def initTimeoutMs : Nat := 5000

/-! ### Concrete sessions, profiles and traces used in witnesses and
counterexamples -/

/-- A session for user 1. -/
def u1Session : Session := { userId := 1 }

/-- A session for user 2. -/
def u2Session : Session := { userId := 2 }

/-- The profile row of user 1. -/
def u1Profile : Profile := { id := 1, role := Role.student }

/-- Push event for user 1, push event for user 2, then the user-1 profile
fetch (controller 0) delivers the row it had already retrieved before its
controller was aborted. -/
def tornTrace : List Event :=
  [Event.authEvent (some u1Session),
   Event.authEvent (some u2Session),
   Event.fetchSettled 0 (FetchOutcome.ok u1Profile)]

/-- Push event for user 1, then push event for user 2, during
initialization (so `loading` is still true). -/
def switchTrace : List Event :=
  [Event.authEvent (some u1Session),
   Event.authEvent (some u2Session)]

/-! ### Claim theorems -/

/-- Claim C1 (code bug): the torn-profile invariant fails on the code.  In
the trace `tornTrace`, the profile fetch issued for user 1 settles after the
session has switched to user 2; the stale settlement passes the
`profileFetchController.signal.aborted` guard because that closure variable
was reassigned to the fresh (unaborted) controller of user 2's fetch, and
the provider ends with `user = 2` while `profile.id = 1`. -/
theorem c1_stale_profile_applied :
    (run tornTrace).auth.user = some 2 ∧
    (run tornTrace).auth.profile = some u1Profile ∧
    u1Profile.id ≠ 2 := by decide

/-- Claim C2 (code bug): a settlement of a superseded profile fetch is not
free of state mutation.  After the account switch of `switchTrace`,
`loading` is still true; delivering the aborted user-1 fetch's AbortError
runs `fetchUserProfile`'s `finally` block, which sets `loading` to false
even though user 2's fetch is still in flight. -/
theorem c2_late_settlement_mutates_loading :
    (run switchTrace).auth.loading = true ∧
    (run (switchTrace ++ [Event.fetchSettled 0 FetchOutcome.abortedThrown])).auth.loading
      = false ∧
    findFetch (run (switchTrace ++ [Event.fetchSettled 0 FetchOutcome.abortedThrown])).pending 1
      = some 2 := by decide

/-- Push event for user 1, its profile fetch settles, then the identical
session is delivered again. -/
def refreshTrace : List Event :=
  [Event.authEvent (some u1Session),
   Event.fetchSettled 0 (FetchOutcome.ok u1Profile),
   Event.authEvent (some u1Session)]

/-- Claim C3 counterexample: delivering a session identity-equal to the held
one is not a no-op refresh.  After `refreshTrace`, in which the same session
is delivered a second time, a fresh profile fetch is in flight under a new
controller — `handleAuthStateChange` performs no identity check and restarts
the fetch. -/
theorem c3_identical_session_restarts_fetch :
    (run (refreshTrace.take 2)).pending = [] ∧
    (run refreshTrace).pending = [(1, 1)] ∧
    (run refreshTrace).ctrl = some 1 ∧
    (run (refreshTrace.take 2)).ctrl = some 0 := by decide

/-- Claim C3 (amended): delivering a session identity-equal to the currently
held session updates the session reference, leaves `profile` and `loading`
unchanged at that point, but aborts the current controller and restarts the
profile fetch under a fresh controller. -/
theorem c3_refresh_updates_session_but_refetches
    (st : SyncState) (s : Session) (_h : st.auth.session = some s) :
    (step st (Event.authEvent (some s))).auth.session = some s ∧
    (step st (Event.authEvent (some s))).auth.user = some s.userId ∧
    (step st (Event.authEvent (some s))).auth.profile = st.auth.profile ∧
    (step st (Event.authEvent (some s))).auth.loading = st.auth.loading ∧
    (step st (Event.authEvent (some s))).ctrl = some st.nextCtrl ∧
    (step st (Event.authEvent (some s))).pending
      = st.pending ++ [(st.nextCtrl, s.userId)] := by
  cases hc : st.ctrl <;>
    simp [step, handleAuthStateChange, abortCurrent, startFetch, hc]

/-- Witness for the amended C3 theorem at the state reached by one push
event for user 1, refreshing with the same session. -/
theorem c3_refresh_witness :
    (run [Event.authEvent (some u1Session)]).auth.session = some u1Session ∧
    (step (run [Event.authEvent (some u1Session)])
        (Event.authEvent (some u1Session))).auth.profile
      = (run [Event.authEvent (some u1Session)]).auth.profile :=
  ⟨by decide,
   (c3_refresh_updates_session_but_refetches
      (run [Event.authEvent (some u1Session)]) u1Session (by decide)).2.2.1⟩

/-- Claim C5: `signOut` clears `user`, `profile` and `session` in its
synchronous prefix — before the backend `auth.signOut()` call is issued
(the call is outstanding in the resulting state) — and the settlement of
that backend call, successful or failed, leaves the three fields cleared. -/
theorem c5_signout_clears_before_backend (st : SyncState) :
    ((step st Event.signOutStart).auth.user = none ∧
     (step st Event.signOutStart).auth.profile = none ∧
     (step st Event.signOutStart).auth.session = none ∧
     (step st Event.signOutStart).signOutPending = st.signOutPending + 1) ∧
    ∀ ok : Bool,
      (step (step st Event.signOutStart) (Event.signOutSettled ok)).auth.user = none ∧
      (step (step st Event.signOutStart) (Event.signOutSettled ok)).auth.profile = none ∧
      (step (step st Event.signOutStart) (Event.signOutSettled ok)).auth.session = none := by
  refine ⟨by simp [step, startSignOut], fun ok => ?_⟩
  simp [step, startSignOut, settleSignOut]

/-- Witness for C5 at the mount state with a failing backend call. -/
theorem c5_signout_witness :
    (step (step initState Event.signOutStart) (Event.signOutSettled false)).auth.user
      = none :=
  ((c5_signout_clears_before_backend initState).2 false).1

/-- Claim C7: if the initial session query resolves with no session, or
fails (error result or thrown exception), the provider collapses to the
Unauthenticated state: user, profile and session null and `loading` false —
whatever state push events had produced before; no error value reaches the
observable state. -/
theorem c7_init_failure_collapses (st : SyncState) (h : st.initPending = true) :
    (step st (Event.getSessionResolved (InitOutcome.ok none))).auth
      = { user := none, profile := none, session := none, loading := false } ∧
    (step st (Event.getSessionResolved InitOutcome.fail)).auth
      = { user := none, profile := none, session := none, loading := false } := by
  constructor <;> simp [step, h, settleInit, resetAuthState]

/-- Witness for C7 at the mount state. -/
theorem c7_init_failure_witness :
    (step initState (Event.getSessionResolved (InitOutcome.ok none))).auth
      = { user := none, profile := none, session := none, loading := false } :=
  (c7_init_failure_collapses initState (by decide)).1

/-- Claim C8: a not-found (PGRST116) outcome of the current profile fetch is
handled as a normal result: `user` is unchanged, `profile` becomes null and
`loading` clears; no error reaches the observable state. -/
theorem c8_not_found_is_normal (st : SyncState) (c u : Nat)
    (hfind : findFetch st.pending c = some u)
    (hguard : ctrlAborted st = false) :
    (step st (Event.fetchSettled c FetchOutcome.notFound)).auth.user = st.auth.user ∧
    (step st (Event.fetchSettled c FetchOutcome.notFound)).auth.profile = none ∧
    (step st (Event.fetchSettled c FetchOutcome.notFound)).auth.loading = false := by
  have hg0 : ctrlAborted { st with pending := removeFetch st.pending c } = false := by
    simpa [ctrlAborted] using hguard
  simp [step, hfind, settleFetch, hg0]

/-- Witness for C8: user 3 signs in, the store has no profile row yet. -/
theorem c8_not_found_witness :
    (step (run [Event.authEvent (some { userId := 3 })])
        (Event.fetchSettled 0 FetchOutcome.notFound)).auth.user = some 3 ∧
    (step (run [Event.authEvent (some { userId := 3 })])
        (Event.fetchSettled 0 FetchOutcome.notFound)).auth.profile = none :=
  ⟨by
      have := (c8_not_found_is_normal (run [Event.authEvent (some { userId := 3 })])
        0 3 (by decide) (by decide)).1
      rw [this]; decide,
   (c8_not_found_is_normal (run [Event.authEvent (some { userId := 3 })])
      0 3 (by decide) (by decide)).2.1⟩

/-! ### useAuth and the derived role flags -/

/-- The value published through the context: the read-only snapshot the
consumer receives (the three action closures are omitted; they carry no
state). -/
structure AuthSnapshot where
  user : Option Nat
  profile : Option Profile
  session : Option Session
  loading : Bool
  isAdmin : Bool
  isStudent : Bool
deriving DecidableEq

/-- The `useAuth` hook: `useContext` yields the provider's value or
`undefined`; outside a provider the hook throws, inside it returns the full
snapshot. -/
def useAuth (ctx : Option AuthSnapshot) : Except String AuthSnapshot :=
  match ctx with
  | none => Except.error "useAuth must be used within an AuthProvider"
  | some v => Except.ok v

/-- A snapshot value used in the C9 witness. -/
def signedOutSnapshot : AuthSnapshot where
  user := none
  profile := none
  session := none
  loading := false
  isAdmin := false
  isStudent := false

/-- Claim C9: calling `useAuth` with no provider in scope (context
undefined) always yields the thrown error, never an undefined or partial
value; with a provider it returns the provider's full snapshot unchanged. -/
theorem c9_useauth_throws_without_provider :
    useAuth none = Except.error "useAuth must be used within an AuthProvider" ∧
    ∀ v : AuthSnapshot, useAuth (some v) = Except.ok v :=
  ⟨rfl, fun _ => rfl⟩

/-- Witness for C9 at a concrete snapshot. -/
theorem c9_useauth_witness :
    useAuth (some signedOutSnapshot) = Except.ok signedOutSnapshot :=
  c9_useauth_throws_without_provider.2 signedOutSnapshot

/-- `const isAdmin = profile?.role === 'admin'` from the source. -/
def isAdmin (p : Option Profile) : Bool :=
  match p with
  | some pr => pr.role == Role.admin
  | none => false

/-- `const isStudent = profile?.role === 'student'` from the source. -/
def isStudent (p : Option Profile) : Bool :=
  match p with
  | some pr => pr.role == Role.student
  | none => false

/-- Claim C10: for every value of the `profile` state, `isAdmin` is true
exactly when a profile is present with role admin, `isStudent` exactly when
one is present with role student; the two flags are never both true, and
both are false when `profile` is null. -/
theorem c10_role_flags (p : Option Profile) :
    (isAdmin p = true ↔ ∃ pr, p = some pr ∧ pr.role = Role.admin) ∧
    (isStudent p = true ↔ ∃ pr, p = some pr ∧ pr.role = Role.student) ∧
    ¬(isAdmin p = true ∧ isStudent p = true) ∧
    (p = none → isAdmin p = false ∧ isStudent p = false) := by
  rcases p with _ | ⟨i, r⟩
  · simp [isAdmin, isStudent]
  · cases r <;> simp [isAdmin, isStudent]

/-- Witness for C10 at an admin profile and at a null profile. -/
theorem c10_role_flags_witness :
    isAdmin (some { id := 1, role := Role.admin }) = true ∧
    isStudent none = false :=
  ⟨(c10_role_flags (some { id := 1, role := Role.admin })).1.mpr
      ⟨{ id := 1, role := Role.admin }, rfl, rfl⟩,
   ((c10_role_flags none).2.2.2 rfl).2⟩

/-! ### The loading flag and outstanding work (claim C6) -/

/-- Some asynchronous work that governs `loading` is outstanding: the
initial session query, an in-flight profile fetch, a backend call of
`signIn` / `signUp` / `signOut`, or the push notification of a sign-in that
already succeeded. -/
def outstanding (st : SyncState) : Prop :=
  st.initPending = true ∨ st.pending ≠ [] ∨ st.signInPending ≠ 0 ∨
  st.signUpAuthPending ≠ 0 ∨ st.signUpInsertPending ≠ 0 ∨
  st.signOutPending ≠ 0 ∨ st.postSignIn = true

/-- Every path of `settleFetch` runs the `finally` block, so `loading` is
false afterwards. -/
theorem settleFetch_loading (st : SyncState) (c : Nat) (o : FetchOutcome) :
    (settleFetch st c o).auth.loading = false := by
  cases o <;> simp [settleFetch] <;> split <;> simp

/-- One delivered event preserves the invariant that `loading` is true only
while some governing asynchronous work is outstanding. -/
theorem step_preserves_loading_inv (st : SyncState) (e : Event)
    (h : st.auth.loading = true → outstanding st) :
    (step st e).auth.loading = true → outstanding (step st e) := by
  cases e with
  | timerFires =>
      simp only [step, fireTimer]
      split
      · simp
      · exact h
  | getSessionResolved o =>
      simp only [step]
      split
      · cases o with
        | fail => simp [settleInit, resetAuthState]
        | ok s =>
            cases s with
            | none => simp [settleInit, resetAuthState]
            | some s' =>
                intro _
                cases hc : st.ctrl <;>
                  simp [outstanding, settleInit, startFetch, abortCurrent, hc]
      · exact h
  | authEvent s =>
      cases s with
      | none =>
          simp [step, handleAuthStateChange, abortCurrent, resetAuthState]
      | some s' =>
          intro _
          cases hc : st.ctrl <;>
            simp [outstanding, step, handleAuthStateChange, abortCurrent,
              startFetch, hc]
  | fetchSettled c o =>
      simp only [step]
      split
      · exact h
      · split
        · exact h
        · rw [settleFetch_loading]; simp
  | signInStart =>
      intro _
      simp [outstanding, step, startSignIn]
  | signInSettled o =>
      simp only [step, settleSignIn]
      split
      · exact h
      · cases o <;> simp [outstanding]
  | signUpStart =>
      intro _
      simp [outstanding, step, startSignUp]
  | signUpAuthSettled o =>
      simp only [step, settleSignUpAuth]
      split
      · exact h
      · cases o <;> simp [outstanding]
  | signUpInsertSettled ok =>
      simp only [step, settleSignUpInsert]
      split
      · exact h
      · simp
  | signOutStart =>
      intro _
      simp [outstanding, step, startSignOut]
  | signOutSettled ok =>
      simp only [step, settleSignOut]
      split
      · exact h
      · simp

/-- The loading invariant propagates along any run. -/
theorem runFrom_loading_inv (tr : List Event) :
    ∀ st : SyncState, (st.auth.loading = true → outstanding st) →
      (runFrom st tr).auth.loading = true → outstanding (runFrom st tr) := by
  induction tr with
  | nil => exact fun st h => h
  | cons e tr ih =>
      exact fun st h => ih (step st e) (step_preserves_loading_inv st e h)

/-- The session query settles with no session, then `signIn` is called:
`loading` is true while only the sign-in backend call is outstanding. -/
def signInLoadingTrace : List Event :=
  [Event.getSessionResolved (InitOutcome.ok none), Event.signInStart]

/-- Claim C6 counterexample: a reachable state in which `loading` is true
although neither the initial session query nor any profile fetch is
outstanding — `signIn` set `loading` true while only its backend call is in
flight. -/
theorem c6_loading_without_query_or_fetch :
    (run signInLoadingTrace).auth.loading = true ∧
    (run signInLoadingTrace).initPending = false ∧
    (run signInLoadingTrace).pending = [] := by decide

/-- Claim C6 (amended): in every reachable state, `loading` is true only
while the initial session query, an in-flight profile fetch, a
sign-in/sign-up/sign-out backend call, or the push notification of an
already-successful sign-in is outstanding; in every other reachable state,
including all error states, `loading` is false. -/
theorem c6_loading_implies_outstanding (tr : List Event)
    (h : (run tr).auth.loading = true) : outstanding (run tr) :=
  runFrom_loading_inv tr initState (fun _ => Or.inl rfl) h

/-- Witness for the amended C6 at the mount state, where the session query
is outstanding. -/
theorem c6_loading_witness : outstanding (run []) :=
  c6_loading_implies_outstanding [] (by decide)

/-! ### Startup timeout and loading liveness (claim C4) -/

/-- Whether an event is the settlement of the initial `getSession()` query. -/
def isInitRes : Event → Bool
  | .getSessionResolved _ => true
  | _ => false

/-- The initial session query never resolves during the trace. -/
abbrev noInitRes (tr : List Event) : Prop := ∀ e ∈ tr, isInitRes e = false

/-- By the end of the trace the startup timeout is gone — it fired or was
cleared — i.e. at least the configured timeout of wall-clock time passed. -/
abbrev timeoutComplete (tr : List Event) : Prop := (run tr).timerArmed = false

/-- At some point of the trace the observable `loading` flag is false. -/
abbrev loadingClearsWithin (tr : List Event) : Prop :=
  ∃ i, (run (List.take i tr)).auth.loading = false

/-- Every path of `settleFetch` leaves the startup timeout untouched. -/
theorem settleFetch_timer (st : SyncState) (c : Nat) (o : FetchOutcome) :
    (settleFetch st c o).timerArmed = st.timerArmed := by
  cases o <;> simp [settleFetch] <;> split <;> simp

/-- Events other than the timer callback and the `getSession()` settlement
never touch the startup timeout. -/
theorem step_timer_preserved (st : SyncState) (e : Event)
    (h1 : isInitRes e = false) (h2 : e ≠ Event.timerFires) :
    (step st e).timerArmed = st.timerArmed := by
  cases e with
  | timerFires => exact absurd rfl h2
  | getSessionResolved o => simp [isInitRes] at h1
  | authEvent s =>
      cases s <;> cases hc : st.ctrl <;>
        simp [step, handleAuthStateChange, abortCurrent, startFetch,
          resetAuthState, hc]
  | fetchSettled c o =>
      simp only [step]
      split
      · rfl
      · split
        · rfl
        · exact settleFetch_timer st c o
  | signInStart => simp [step, startSignIn]
  | signInSettled o =>
      simp only [step, settleSignIn]
      split
      · rfl
      · cases o <;> simp
  | signUpStart => simp [step, startSignUp]
  | signUpAuthSettled o =>
      simp only [step, settleSignUpAuth]
      split
      · rfl
      · cases o <;> simp
  | signUpInsertSettled ok =>
      simp only [step, settleSignUpInsert]
      split
      · rfl
      · simp
  | signOutStart => simp [step, startSignOut]
  | signOutSettled ok =>
      simp only [step, settleSignOut]
      split
      · rfl
      · simp

/-- If the startup timeout is armed, the query never resolves, and by the
end of the trace the timeout is gone, then the timer callback ran at some
point, and right after it `loading` is false. -/
theorem timer_fires_clears_loading (tr : List Event) :
    ∀ st : SyncState, st.timerArmed = true →
      (∀ e ∈ tr, isInitRes e = false) →
      (runFrom st tr).timerArmed = false →
      ∃ i, (runFrom st (List.take i tr)).auth.loading = false := by
  induction tr with
  | nil =>
      intro st h1 _ h3
      simp only [runFrom] at h3
      rw [h1] at h3
      exact absurd h3 (by simp)
  | cons e tr ih =>
      intro st h1 hall h3
      by_cases he : e = Event.timerFires
      · subst he
        refine ⟨1, ?_⟩
        simp [runFrom, step, fireTimer, h1]
      · have harm : (step st e).timerArmed = true := by
          rw [step_timer_preserved st e (hall e (List.mem_cons_self e tr)) he]
          exact h1
        simp only [runFrom] at h3
        obtain ⟨i, hi⟩ := ih (step st e) harm
          (fun e' hm => hall e' (List.mem_cons_of_mem e hm)) h3
        exact ⟨i + 1, by simpa [runFrom, List.take_succ_cons] using hi⟩

/-- The timer callback runs at most once: firing it again is a no-op. -/
theorem fireTimer_fireTimer (st : SyncState) :
    fireTimer (fireTimer st) = fireTimer st := by
  by_cases h : st.timerArmed <;> simp [fireTimer, h]

/-- A trace of timer events alone either leaves the state alone or applies
the timer callback once. -/
theorem runFrom_all_timer (tr : List Event) :
    ∀ st : SyncState, (∀ e ∈ tr, e = Event.timerFires) →
      runFrom st tr = st ∨ runFrom st tr = fireTimer st := by
  induction tr with
  | nil => exact fun st _ => Or.inl rfl
  | cons e tr ih =>
      intro st hall
      have he : e = Event.timerFires := hall e (List.mem_cons_self e tr)
      subst he
      right
      show runFrom (step st Event.timerFires) tr = fireTimer st
      simp only [step]
      rcases ih (fireTimer st) (fun e' hm => hall e' (List.mem_cons_of_mem _ hm))
        with h | h
      · exact h
      · rw [h, fireTimer_fireTimer]

/-- The session query resolves with a session whose profile fetch then hangs
forever: the startup timeout has been cleared. -/
def resolvedHangTrace : List Event :=
  [Event.getSessionResolved (InitOutcome.ok (some u1Session))]

/-- Claim C4 counterexample: `loading` does not become false within the
startup timeout on every input sequence.  In `resolvedHangTrace` the session
query resolves (clearing the timeout) and the profile fetch never settles:
the timeout elapses with `loading` still true at every point. -/
theorem c4_cleared_timer_counterexample :
    timeoutComplete resolvedHangTrace ∧ ¬ loadingClearsWithin resolvedHangTrace := by
  constructor
  · show (run resolvedHangTrace).timerArmed = false
    decide
  · rintro ⟨i, hi⟩
    have h : List.take i resolvedHangTrace = [] ∨
        List.take i resolvedHangTrace = resolvedHangTrace := by
      cases i with
      | zero => exact Or.inl rfl
      | succ n => exact Or.inr (by simp [resolvedHangTrace])
    rcases h with h | h <;> rw [h] at hi <;> revert hi <;> decide

/-- Claim C4 (amended): if the initial session query never resolves, the
startup timer fires within the timeout and forces `loading = false`; and if
nothing but the timer is delivered, the state when it fires is the
Unauthenticated one.  (When the query does resolve first, the timer is
cleared and the bound no longer applies — see the counterexample.) -/
theorem c4_timeout_clears_loading (tr : List Event)
    (h1 : noInitRes tr) (h2 : timeoutComplete tr) :
    loadingClearsWithin tr ∧
      ((∀ e ∈ tr, e = Event.timerFires) →
        (run tr).auth
          = { user := none, profile := none, session := none, loading := false }) := by
  constructor
  · exact timer_fires_clears_loading tr initState rfl h1 h2
  · intro hall
    rcases runFrom_all_timer tr initState hall with h | h
    · have h2' : (runFrom initState tr).timerArmed = false := h2
      rw [h] at h2'
      exact absurd h2' (by decide)
    · show (runFrom initState tr).auth = _
      rw [h]
      decide

/-- Witness for the amended C4: the trace consisting of the timer firing
alone ends Unauthenticated with `loading` false. -/
theorem c4_timeout_witness :
    (run [Event.timerFires]).auth
      = { user := none, profile := none, session := none, loading := false } :=
  (c4_timeout_clears_loading [Event.timerFires]
      (by decide) (by decide)).2 (by decide)

end UpscAuth
